import Mathlib

/-!
Verification of the rate-of-spread engine of the cffdrs_ts repository.

The numeric code works on real-valued quantities (JavaScript `number`s,
read here as exact real arithmetic); the embedding therefore lives over `ℝ`
with `Real.exp`, `Real.log`, `Real.rpow` standing for `Math.exp`, `Math.log`,
and `Math.pow`.  `Math.pow` with the literal exponents `3.0` and `4.0` agrees
with the ring power `x ^ (3 : ℕ)` / `x ^ (4 : ℕ)` on every real, and is
embedded that way; fractional exponents become `Real.rpow`.

Sources:
 - `src/unnamed/part_009`        : buildupEffect, slopeAdjustment, Slopecalc
 - `src/unnamed/part_002`        : the C6 conifer-plantation model
 - `src/src/fwi/length_to_breadth_at_time.ts` : CFBcalc helpers
 - `src/src/fwi/overwinter_drought_code.ts`   : rateOfSpreadExtended / rateOfSpread
 - `src/src/fwi/pros.ts`         : initialSpreadIndex
-/

noncomputable section

open Real

/-- The Fire Behaviour Prediction fuel types.  The source keys its tables by
the 17 strings `C1 .. O1B`; `NF` (non-fuel) and `WA` (water) occur only as
inputs to the slope module and fall through every table lookup. -/
inductive FuelType
  | C1 | C2 | C3 | C4 | C5 | C6 | C7
  | D1
  | M1 | M2 | M3 | M4
  | S1 | S2 | S3
  | O1A | O1B
  | NF | WA
deriving DecidableEq, BEq

namespace FuelType

/-- Average BUI for the fuel type (`BUIo` table of `buildupEffect`,
`src/unnamed/part_009`).  `NF`/`WA` are absent from the source map: the
JavaScript guard `BUIo[FUELTYPE] > 0` is false on `undefined`, which the
value `0` reproduces. -/
def BUIo : FuelType → ℝ
  | C1 => 72 | C2 => 64 | C3 => 62 | C4 => 66 | C5 => 56 | C6 => 62 | C7 => 106
  | D1 => 32
  | M1 => 50 | M2 => 50 | M3 => 50 | M4 => 50
  | S1 => 38 | S2 => 63 | S3 => 31
  | O1A => 1 | O1B => 1
  | NF => 0 | WA => 0

/-- Proportion of maximum spread rate at a standard BUI (`Q` table of
`buildupEffect`).  `NF`/`WA`: absent in the source, never read. -/
def Q : FuelType → ℝ
  | C1 => 0.9 | C2 => 0.7 | C3 => 0.75 | C4 => 0.8 | C5 => 0.8 | C6 => 0.8 | C7 => 0.85
  | D1 => 0.9
  | M1 => 0.8 | M2 => 0.8 | M3 => 0.8 | M4 => 0.8
  | S1 => 0.75 | S2 => 0.75 | S3 => 0.75
  | O1A => 1.0 | O1B => 1.0
  | NF => 0 | WA => 0

/-- Spread-curve parameter `a` (tables of `rateOfSpreadExtended` and
`slopeAdjustment`). -/
def aCoef : FuelType → ℝ
  | C1 => 90 | C2 => 110 | C3 => 110 | C4 => 110 | C5 => 30 | C6 => 30 | C7 => 45
  | D1 => 30
  | M1 => 0 | M2 => 0 | M3 => 120 | M4 => 100
  | S1 => 75 | S2 => 40 | S3 => 55
  | O1A => 190 | O1B => 250
  | NF => 0 | WA => 0

/-- Spread-curve parameter `b`. -/
def bCoef : FuelType → ℝ
  | C1 => 0.0649 | C2 => 0.0282 | C3 => 0.0444 | C4 => 0.0293 | C5 => 0.0697
  | C6 => 0.0800 | C7 => 0.0305
  | D1 => 0.0232
  | M1 => 0 | M2 => 0 | M3 => 0.0572 | M4 => 0.0404
  | S1 => 0.0297 | S2 => 0.0438 | S3 => 0.0829
  | O1A => 0.0310 | O1B => 0.0350
  | NF => 0 | WA => 0

/-- Spread-curve parameter `c0`. -/
def c0Coef : FuelType → ℝ
  | C1 => 4.5 | C2 => 1.5 | C3 => 3.0 | C4 => 1.5 | C5 => 4.0 | C6 => 3.0 | C7 => 2.0
  | D1 => 1.6
  | M1 => 0 | M2 => 0 | M3 => 1.4 | M4 => 1.48
  | S1 => 1.3 | S2 => 1.7 | S3 => 3.2
  | O1A => 1.4 | O1B => 1.7
  | NF => 0 | WA => 0

/-- Recursion measure for the mixed-fuel blend: the mixedwood types recurse
into `C2`/`D1` only. -/
def fuelRank : FuelType → ℕ
  | M1 => 1 | M2 => 1 | M3 => 1 | M4 => 1
  | _ => 0

end FuelType

/-- `buildupEffect` (`src/unnamed/part_009` lines 33-63): Eq. 54 of FCFDG 1992. -/
def buildupEffect (FUELTYPE : FuelType) (BUI : ℝ) : ℝ :=
  if BUI > 0 ∧ FUELTYPE.BUIo > 0 then
    exp (50 * log FUELTYPE.Q * (1 / BUI - 1 / FUELTYPE.BUIo))
  else
    1

/-- `criticalSurfaceIntensity` (`src/src/fwi/length_to_breadth_at_time.ts`
lines 76-78). -/
def criticalSurfaceIntensity (FMC CBH : ℝ) : ℝ :=
  0.001 * CBH ^ (1.5 : ℝ) * (460 + 25.9 * FMC) ^ (1.5 : ℝ)

/-- `surfaceFireRateOfSpread` (same file, lines 87-89): RSO. -/
def surfaceFireRateOfSpread (CSI SFC : ℝ) : ℝ :=
  CSI / (300 * SFC)

/-- `crownFractionBurned` (same file, lines 98-100). -/
def crownFractionBurned (ROS RSO : ℝ) : ℝ :=
  if ROS > RSO then 1 - exp (-0.23 * (ROS - RSO)) else 0

/-- `intermediateSurfaceRateOfSpreadC6` (`src/unnamed/part_002` lines 30-33):
Eq. 62.  `Math.pow(x, 3.0)` is the cube on every real. -/
def intermediateSurfaceRateOfSpreadC6 (ISI : ℝ) : ℝ :=
  30 * (1 - exp (-0.08 * ISI)) ^ (3 : ℕ)

/-- `surfaceRateOfSpreadC6` (`src/unnamed/part_002` lines 35-38): Eq. 63. -/
def surfaceRateOfSpreadC6 (RSI BUI : ℝ) : ℝ :=
  RSI * buildupEffect FuelType.C6 BUI

/-- `crownRateOfSpreadC6` (`src/unnamed/part_002` lines 40-51): Eqs. 59-61, 64.
`Math.pow(x, 4.0)` is the fourth power on every real. -/
def crownRateOfSpreadC6 (ISI FMC : ℝ) : ℝ :=
  60 * (1 - exp (-0.0497 * ISI)) *
      ((1.5 - 0.00275 * FMC) ^ (4 : ℕ) / (460 + 25.9 * FMC) * 1000) / 0.778

/-- `crownFractionBurnedC6` (`src/unnamed/part_002` lines 53-55). -/
def crownFractionBurnedC6 (RSC RSS RSO : ℝ) : ℝ :=
  if RSC > RSS ∧ RSS > RSO then crownFractionBurned RSS RSO else 0

/-- `rateOfSpreadC6` (`src/unnamed/part_002` lines 57-60): Eq. 65. -/
def rateOfSpreadC6 (RSC RSS CFB : ℝ) : ℝ :=
  if RSC > RSS then RSS + CFB * (RSC - RSS) else RSS

/-- Grass curing factor (`rateOfSpreadExtended` line 139 and
`slopeAdjustment` lines 321-326; identical expression in both). -/
def curingFactor (CC : ℝ) : ℝ :=
  if CC < 58.8 then 0.005 * (exp (0.061 * CC) - 1) else 0.176 + 0.02 * (CC - 58.8)

/-- Result record of `rateOfSpreadExtended`
(`src/src/fwi/overwinter_drought_code.ts` lines 101-106). -/
structure RosResult where
  ROS : ℝ
  CFB : ℝ
  CSI : ℝ
  RSO : ℝ

open FuelType in
mutual

/-- The `RSI` computation of `rateOfSpreadExtended`
(`src/src/fwi/overwinter_drought_code.ts` lines 118-145), per observation.
The mixedwood branches recurse into the whole engine with the fuel type
substituted to `C2`/`D1` and `BUI` set to the `-1` sentinel (`NoBUI`),
exactly as the source calls `rateOfSpread` there; `BUI` itself is not read
by this stage.  Fuel types matching no branch keep the fill value `-1`. -/
def rsiOf (ft : FuelType) (ISI FMC SFC PC PDF CC CBH : ℝ) : ℝ :=
  match ft with
  | C1 | C2 | C3 | C4 | C5 | C7 | D1 | S1 | S2 | S3 =>
      ft.aCoef * (1 - exp (-ft.bCoef * ISI)) ^ ft.c0Coef
  | M1 =>
      PC / 100 * (rateOfSpreadExtended C2 ISI (-1) FMC SFC PC PDF CC CBH).ROS
        + (100 - PC) / 100 * (rateOfSpreadExtended D1 ISI (-1) FMC SFC PC PDF CC CBH).ROS
  | M2 =>
      PC / 100 * (rateOfSpreadExtended C2 ISI (-1) FMC SFC PC PDF CC CBH).ROS
        + 0.2 * ((100 - PC) / 100)
          * (rateOfSpreadExtended D1 ISI (-1) FMC SFC PC PDF CC CBH).ROS
  | M3 =>
      PDF / 100 * (FuelType.M3.aCoef * (1 - exp (-FuelType.M3.bCoef * ISI)) ^ FuelType.M3.c0Coef)
        + (1 - PDF / 100) * (rateOfSpreadExtended D1 ISI (-1) FMC SFC PC PDF CC CBH).ROS
  | M4 =>
      PDF / 100 * (FuelType.M4.aCoef * (1 - exp (-FuelType.M4.bCoef * ISI)) ^ FuelType.M4.c0Coef)
        + 0.2 * (1 - PDF / 100) * (rateOfSpreadExtended D1 ISI (-1) FMC SFC PC PDF CC CBH).ROS
  | O1A | O1B =>
      ft.aCoef * (1 - exp (-ft.bCoef * ISI)) ^ ft.c0Coef * curingFactor CC
  | C6 => intermediateSurfaceRateOfSpreadC6 ISI
  | NF | WA => -1
termination_by 2 * ft.fuelRank
decreasing_by
  all_goals simp [FuelType.fuelRank]

/-- `rateOfSpreadExtended` (`src/src/fwi/overwinter_drought_code.ts` lines
108-156), per observation.  `RSC` is only read in the C6 branches (the source
holds `NaN` elsewhere).  The returned `ROS` is the floored `constrainedROS`. -/
def rateOfSpreadExtended (ft : FuelType) (ISI BUI FMC SFC PC PDF CC CBH : ℝ) : RosResult :=
  let RSI := rsiOf ft ISI FMC SFC PC PDF CC CBH
  let CSI := criticalSurfaceIntensity FMC CBH
  let RSO := surfaceFireRateOfSpread CSI SFC
  let RSC := crownRateOfSpreadC6 ISI FMC
  let RSS := if ft = C6 then surfaceRateOfSpreadC6 RSI BUI else buildupEffect ft BUI * RSI
  let CFB := if ft = C6 then crownFractionBurnedC6 RSC RSS RSO else crownFractionBurned RSS RSO
  let ROS := if ft = C6 then rateOfSpreadC6 RSC RSS CFB else RSS
  { ROS := if ROS ≤ 0 then 0.000001 else ROS, CFB := CFB, CSI := CSI, RSO := RSO }
termination_by 2 * ft.fuelRank + 1
decreasing_by
  all_goals simp [FuelType.fuelRank]

end

/-- `rateOfSpread` (`src/src/fwi/overwinter_drought_code.ts` lines 158-162). -/
def rateOfSpread (ft : FuelType) (ISI BUI FMC SFC PC PDF CC CBH : ℝ) : ℝ :=
  (rateOfSpreadExtended ft ISI BUI FMC SFC PC PDF CC CBH).ROS

/-- Fine-fuel moisture `fm` of `initialSpreadIndex` (`src/src/fwi/pros.ts`,
Eq. 10 with the file's `FFMC_COEFFICIENT = 59.5`). -/
def isiFineFuelMoisture (ffmc : ℝ) : ℝ :=
  59.5 * (101 - ffmc) / (59.5 + ffmc)

/-- `initialSpreadIndex` (`src/src/fwi/pros.ts` lines 131-146).  The source's
`fbpMod` parameter defaults to `false`; it is passed explicitly here. -/
def initialSpreadIndex (ffmc ws : ℝ) (fbpMod : Bool) : ℝ :=
  let fm := isiFineFuelMoisture ffmc
  let fW := if ws ≥ 40 ∧ fbpMod then 12 * (1 - exp (-0.0818 * (ws - 28)))
            else exp (0.05039 * ws)
  let fF := 91.9 * exp (-0.1386 * fm) * (1 + fm ^ (5.31 : ℝ) / 49300000)
  0.208 * fW * fF

/-- One observation of the slope-adjustment batch (`slopeAdjustment`,
`src/unnamed/part_009` lines 131-146 collects these as parallel arrays). -/
structure SlopeObs where
  FUELTYPE : FuelType
  FFMC : ℝ
  BUI : ℝ
  WS : ℝ
  WAZ : ℝ
  GS : ℝ
  SAZ : ℝ
  FMC : ℝ
  SFC : ℝ
  PC : ℝ
  PDF : ℝ
  CC : ℝ
  CBH : ℝ
  ISI : ℝ

/-- Slope factor (`src/unnamed/part_009` line 149). -/
def slopeFactor (GS : ℝ) : ℝ :=
  if GS ≥ 70 then 10 else exp (3.533 * (GS / 100) ^ (1.2 : ℝ))

/-- Clamped analytic inversion of the simple spread curve
(`src/unnamed/part_009` lines 184-192 and the per-blend repeats). -/
def isfClamped (rsf aF bF c0F : ℝ) : ℝ :=
  let expValue := 1 - (rsf / aF) ^ (1 / c0F)
  if expValue ≥ 0.01 then log expValue / -bF else log 0.01 / -bF

/-- Moisture `m` of the slope module (`src/unnamed/part_009` line 345).
Unlike `isiFineFuelMoisture` it carries no `59.5/(59.5+FFMC)` factor. -/
def slopeFineFuelMoisture (ffmc : ℝ) : ℝ :=
  101 - ffmc

/-- Fine-fuel function `fF` of the slope module
(`src/unnamed/part_009` line 346). -/
def slopeFF (ffmc : ℝ) : ℝ :=
  91.9 * exp (-0.1386 * slopeFineFuelMoisture ffmc)
    * (1 + slopeFineFuelMoisture ffmc ^ (5.31 : ℝ) / 49300000)

/-- Equivalent wind speed `WSE` before the high-wind correction
(`src/unnamed/part_009` line 347). -/
def slopeWSE (ISF fF : ℝ) : ℝ :=
  1 / 0.05039 * log (ISF / (0.208 * fF))

/-- High-wind correction of `WSE` (`src/unnamed/part_009` lines 349-356). -/
def slopeAdjustedWSE (WSE ISF fF : ℝ) : ℝ :=
  if WSE > 40 ∧ ISF < 0.999 * 2.496 * fF then
    28 - 1 / 0.0818 * log (1 - ISF / (2.496 * fF))
  else if WSE > 40 ∧ ISF ≥ 0.999 * 2.496 * fF then
    112.45
  else
    WSE

open FuelType in
/-- The slope-amplified flat-ground ISI `ISF` for one observation
(`src/unnamed/part_009` lines 147-336).  The source computes `ISZ`, `RSZ`,
`RSF` and then inverts per fuel family; every quantity entering observation
`i` comes from index `i` of the parallel arrays, so the computation is
per-observation.  The mixedwood branches re-run the engine with the fuel
substituted to `C2`/`D1` (M1/M2, original `PDF`) or `M3`/`M4`/`D1` with
`PDF = 100` (`PDF100`), then recombine with the original percentage.
`NF`/`WA` keep the fill value `-99` (their batch result is discarded). -/
def slopeISF (o : SlopeObs) : ℝ :=
  let SF := slopeFactor o.GS
  let ISZ := initialSpreadIndex o.FFMC 0 false
  let RSZ := rateOfSpread o.FUELTYPE ISZ (-1) o.FMC o.SFC o.PC o.PDF o.CC o.CBH
  let RSF := RSZ * SF
  match o.FUELTYPE with
  | C1 | C2 | C3 | C4 | C5 | C6 | C7 | D1 | S1 | S2 | S3 =>
      isfClamped RSF o.FUELTYPE.aCoef o.FUELTYPE.bCoef o.FUELTYPE.c0Coef
  | M1 | M2 =>
      let RSF_C2 := rateOfSpread C2 ISZ (-1) o.FMC o.SFC o.PC o.PDF o.CC o.CBH * SF
      let RSF_D1 := rateOfSpread D1 ISZ (-1) o.FMC o.SFC o.PC o.PDF o.CC o.CBH * SF
      o.PC / 100 * isfClamped RSF_C2 FuelType.C2.aCoef FuelType.C2.bCoef FuelType.C2.c0Coef
        + (1 - o.PC / 100)
          * isfClamped RSF_D1 FuelType.D1.aCoef FuelType.D1.bCoef FuelType.D1.c0Coef
  | M3 =>
      let RSF_M3 := rateOfSpread M3 ISZ (-1) o.FMC o.SFC o.PC 100 o.CC o.CBH * SF
      let RSF_D1 := rateOfSpread D1 ISZ (-1) o.FMC o.SFC o.PC 100 o.CC o.CBH * SF
      o.PDF / 100 * isfClamped RSF_M3 FuelType.M3.aCoef FuelType.M3.bCoef FuelType.M3.c0Coef
        + (1 - o.PDF / 100)
          * isfClamped RSF_D1 FuelType.D1.aCoef FuelType.D1.bCoef FuelType.D1.c0Coef
  | M4 =>
      let RSF_M4 := rateOfSpread M4 ISZ (-1) o.FMC o.SFC o.PC 100 o.CC o.CBH * SF
      let RSF_D1 := rateOfSpread D1 ISZ (-1) o.FMC o.SFC o.PC 100 o.CC o.CBH * SF
      o.PDF / 100 * isfClamped RSF_M4 FuelType.M4.aCoef FuelType.M4.bCoef FuelType.M4.c0Coef
        + (1 - o.PDF / 100)
          * isfClamped RSF_D1 FuelType.D1.aCoef FuelType.D1.bCoef FuelType.D1.c0Coef
  | O1A | O1B =>
      isfClamped RSF (curingFactor o.CC * o.FUELTYPE.aCoef) o.FUELTYPE.bCoef o.FUELTYPE.c0Coef
  | NF | WA => -99

/-- Net effective wind speed and spread azimuth for one observation
(`src/unnamed/part_009` lines 345-367). -/
def slopeWSVRAZ (o : SlopeObs) : ℝ × ℝ :=
  let ISF := slopeISF o
  let fF := slopeFF o.FFMC
  let WSE := slopeAdjustedWSE (slopeWSE ISF fF) ISF fF
  let WSX := o.WS * sin o.WAZ + WSE * sin o.SAZ
  let WSY := o.WS * cos o.WAZ + WSE * cos o.SAZ
  let WSV := sqrt (WSX * WSX + WSY * WSY)
  let RAZ := arccos (WSY / WSV)
  (WSV, if WSX < 0 then 2 * π - RAZ else RAZ)

/-- The batch-wide non-fuel test of `slopeAdjustment`
(`src/unnamed/part_009` line 338). -/
def hasNonFuel (obs : List SlopeObs) : Bool :=
  obs.any fun o => o.FUELTYPE == FuelType.NF || o.FUELTYPE == FuelType.WA

/-- `slopeAdjustment` (`src/unnamed/part_009` lines 131-368).  When any
observation of the batch is non-fuel/water the source returns `null` pairs
for the whole batch; otherwise each observation yields its `(WSV, RAZ)`. -/
def slopeAdjustment (obs : List SlopeObs) : List (Option (ℝ × ℝ)) :=
  if hasNonFuel obs then obs.map fun _ => none
  else obs.map fun o => some (slopeWSVRAZ o)

/-- Valid `output` selectors of `Slopecalc` (`src/unnamed/part_009` line 388). -/
def validOutTypes : List String := ["RAZ", "WAZ", "WSV"]

/-- `Slopecalc` (`src/unnamed/part_009` lines 370-397).  An invalid `output`
raises; with a valid `output` the source evaluates
`values[0][output] || null` (discarding the value), which on an empty batch
reads a property of `undefined` and raises a `TypeError`; otherwise the full
`slopeAdjustment` result is returned unchanged. -/
def Slopecalc (obs : List SlopeObs) (output : String) :
    Except String (List (Option (ℝ × ℝ))) :=
  if output ∉ validOutTypes then
    Except.error "invalid output type"
  else
    let values := slopeAdjustment obs
    match values with
    | [] => Except.error "TypeError: values[0] is undefined"
    | _ => Except.ok values

/-- A concrete ordinary observation (fuel C2) used to probe the batch
behaviour of `slopeAdjustment`. -/
def obsC2 : SlopeObs :=
  { FUELTYPE := FuelType.C2, FFMC := 85, BUI := 60, WS := 10, WAZ := 0, GS := 0,
    SAZ := 0, FMC := 100, SFC := 1, PC := 50, PDF := 35, CC := 80, CBH := 7, ISI := 10 }

/-- The same observation with the fuel type changed to non-fuel `NF`. -/
def obsNF : SlopeObs :=
  { FUELTYPE := FuelType.NF, FFMC := 85, BUI := 60, WS := 10, WAZ := 0, GS := 0,
    SAZ := 0, FMC := 100, SFC := 1, PC := 50, PDF := 35, CC := 80, CBH := 7, ISI := 10 }

/-! ## Basic facts about the leaf functions -/

lemma buildupEffect_pos (ft : FuelType) (BUI : ℝ) : 0 < buildupEffect ft BUI := by
  unfold buildupEffect
  split
  · exact exp_pos _
  · exact one_pos

lemma buildupEffect_of_nonpos (ft : FuelType) {BUI : ℝ} (h : BUI ≤ 0) :
    buildupEffect ft BUI = 1 := by
  unfold buildupEffect
  rw [if_neg]
  rintro ⟨h1, -⟩
  exact absurd h (not_le.mpr h1)

lemma crownFractionBurned_nonneg (ROS RSO : ℝ) : 0 ≤ crownFractionBurned ROS RSO := by
  unfold crownFractionBurned
  split
  · have h : (-0.23 : ℝ) * (ROS - RSO) < 0 := by nlinarith
    have := exp_lt_one_iff.mpr h
    linarith
  · exact le_refl 0

lemma crownFractionBurned_lt_one (ROS RSO : ℝ) : crownFractionBurned ROS RSO < 1 := by
  unfold crownFractionBurned
  split
  · have := exp_pos (-0.23 * (ROS - RSO))
    linarith
  · exact one_pos

lemma crownFractionBurned_mono {R1 R2 : ℝ} (RSO : ℝ) (h : R1 ≤ R2) :
    crownFractionBurned R1 RSO ≤ crownFractionBurned R2 RSO := by
  unfold crownFractionBurned
  split
  · rw [if_pos (by linarith)]
    have : -0.23 * (R2 - RSO) ≤ -0.23 * (R1 - RSO) := by nlinarith
    have := exp_le_exp.mpr this
    linarith
  · split
    · have h2 : (-0.23 : ℝ) * (R2 - RSO) < 0 := by
        rename_i h2
        nlinarith
      have := exp_lt_one_iff.mpr h2
      linarith
    · exact le_refl 0

lemma crownFractionBurned_pos {ROS RSO : ℝ} (h : RSO < ROS) :
    0 < crownFractionBurned ROS RSO := by
  unfold crownFractionBurned
  rw [if_pos h]
  have h2 : (-0.23 : ℝ) * (ROS - RSO) < 0 := by nlinarith
  have := exp_lt_one_iff.mpr h2
  linarith

/-- The spread-curve base `1 - exp (-b*ISI)` is nonnegative on `b, ISI ≥ 0`. -/
lemma curveBase_nonneg {b ISI : ℝ} (hb : 0 ≤ b) (hI : 0 ≤ ISI) :
    0 ≤ 1 - exp (-b * ISI) := by
  have h : -b * ISI ≤ 0 := by nlinarith
  have := exp_le_exp.mpr h
  simp only [exp_zero] at this
  linarith

lemma curveBase_pos {b ISI : ℝ} (hb : 0 < b) (hI : 0 < ISI) :
    0 < 1 - exp (-b * ISI) := by
  have h : -b * ISI < 0 := by nlinarith
  have := exp_lt_one_iff.mpr h
  linarith

lemma curveBase_lt_one (b ISI : ℝ) : 1 - exp (-b * ISI) < 1 := by
  have := exp_pos (-b * ISI)
  linarith

lemma curveBase_mono {b ISI1 ISI2 : ℝ} (hb : 0 ≤ b) (h : ISI1 ≤ ISI2) :
    1 - exp (-b * ISI1) ≤ 1 - exp (-b * ISI2) := by
  have h2 : -b * ISI2 ≤ -b * ISI1 := by nlinarith
  have := exp_le_exp.mpr h2
  linarith

/-- Monotonicity of the simple closed-form curve `a*(1-exp(-b*ISI))^c`. -/
lemma simpleCurve_mono {a b c ISI1 ISI2 : ℝ} (ha : 0 ≤ a) (hb : 0 ≤ b) (hc : 0 ≤ c)
    (h0 : 0 ≤ ISI1) (h : ISI1 ≤ ISI2) :
    a * (1 - exp (-b * ISI1)) ^ c ≤ a * (1 - exp (-b * ISI2)) ^ c := by
  apply mul_le_mul_of_nonneg_left _ ha
  exact Real.rpow_le_rpow (curveBase_nonneg hb h0) (curveBase_mono hb h) hc

lemma simpleCurve_pos {a b c ISI : ℝ} (ha : 0 < a) (hb : 0 < b) (hI : 0 < ISI) :
    0 < a * (1 - exp (-b * ISI)) ^ c :=
  mul_pos ha (Real.rpow_pos_of_pos (curveBase_pos hb hI) c)

lemma simpleCurve_nonneg {a b c ISI : ℝ} (ha : 0 ≤ a) (hb : 0 ≤ b) (hI : 0 ≤ ISI) :
    0 ≤ a * (1 - exp (-b * ISI)) ^ c :=
  mul_nonneg ha (Real.rpow_nonneg (curveBase_nonneg hb hI) c)

/-- The final floor `ros <= 0 ? 0.000001 : ros` always yields a positive value. -/
lemma floor_pos (x : ℝ) : 0 < if x ≤ 0 then (0.000001 : ℝ) else x := by
  split
  · norm_num
  · linarith [not_le.mp (by assumption)]

lemma floor_of_pos {x : ℝ} (h : 0 < x) : (if x ≤ 0 then (0.000001 : ℝ) else x) = x :=
  if_neg (not_le.mpr h)

lemma floor_of_nonpos {x : ℝ} (h : x ≤ 0) : (if x ≤ 0 then (0.000001 : ℝ) else x) = 0.000001 :=
  if_pos h

/-- The floor is monotone as long as the smaller pre-floor value is positive. -/
lemma floor_mono_of_pos {x y : ℝ} (hx : 0 < x) (hxy : x ≤ y) :
    (if x ≤ 0 then (0.000001 : ℝ) else x) ≤ if y ≤ 0 then (0.000001 : ℝ) else y := by
  rw [floor_of_pos hx, floor_of_pos (lt_of_lt_of_le hx hxy)]
  exact hxy

lemma curingFactor_nonneg {CC : ℝ} (hCC : 0 ≤ CC) : 0 ≤ curingFactor CC := by
  unfold curingFactor
  split
  · have h1 : (1 : ℝ) ≤ exp (0.061 * CC) := by
      rw [← exp_zero]
      exact exp_le_exp.mpr (by nlinarith)
    nlinarith
  · rename_i h
    push_neg at h
    nlinarith

/-! ## Unfolding the engine -/

/-- For every fuel type other than C6 the returned `ROS` is the floored
`buildupEffect * RSI`. -/
lemma rosExt_ROS_nonC6 (ft : FuelType) (hft : ft ≠ FuelType.C6)
    (ISI BUI FMC SFC PC PDF CC CBH : ℝ) :
    (rateOfSpreadExtended ft ISI BUI FMC SFC PC PDF CC CBH).ROS =
      if buildupEffect ft BUI * rsiOf ft ISI FMC SFC PC PDF CC CBH ≤ 0 then 0.000001
      else buildupEffect ft BUI * rsiOf ft ISI FMC SFC PC PDF CC CBH := by
  rw [rateOfSpreadExtended]
  simp only [if_neg hft]

/-- For C6 the returned `ROS` is the floored crown/surface interpolation. -/
lemma rosExt_ROS_C6 (ISI BUI FMC SFC PC PDF CC CBH : ℝ) :
    (rateOfSpreadExtended FuelType.C6 ISI BUI FMC SFC PC PDF CC CBH).ROS =
      if rateOfSpreadC6 (crownRateOfSpreadC6 ISI FMC)
           (surfaceRateOfSpreadC6 (intermediateSurfaceRateOfSpreadC6 ISI) BUI)
           (crownFractionBurnedC6 (crownRateOfSpreadC6 ISI FMC)
             (surfaceRateOfSpreadC6 (intermediateSurfaceRateOfSpreadC6 ISI) BUI)
             (surfaceFireRateOfSpread (criticalSurfaceIntensity FMC CBH) SFC)) ≤ 0
      then 0.000001
      else rateOfSpreadC6 (crownRateOfSpreadC6 ISI FMC)
             (surfaceRateOfSpreadC6 (intermediateSurfaceRateOfSpreadC6 ISI) BUI)
             (crownFractionBurnedC6 (crownRateOfSpreadC6 ISI FMC)
               (surfaceRateOfSpreadC6 (intermediateSurfaceRateOfSpreadC6 ISI) BUI)
               (surfaceFireRateOfSpread (criticalSurfaceIntensity FMC CBH) SFC)) := by
  rw [rateOfSpreadExtended]
  simp only [if_pos rfl, if_true, eq_self_iff_true, rsiOf]

/-- The engine's recursive `C2` call at the `NoBUI` sentinel evaluates to the
plain C2 curve once `ISI > 0` (the buildup factor is `1`, and the positive
curve value passes the floor unchanged). -/
lemma ros_inner_C2 {ISI : ℝ} (h : 0 < ISI) (FMC SFC PC PDF CC CBH : ℝ) :
    (rateOfSpreadExtended FuelType.C2 ISI (-1) FMC SFC PC PDF CC CBH).ROS =
      110 * (1 - exp (-0.0282 * ISI)) ^ (1.5 : ℝ) := by
  rw [rosExt_ROS_nonC6 _ (by decide)]
  rw [buildupEffect_of_nonpos _ (by norm_num)]
  simp only [rsiOf, FuelType.aCoef, FuelType.bCoef, FuelType.c0Coef, one_mul]
  exact floor_of_pos (simpleCurve_pos (by norm_num) (by norm_num) h)

/-- Same for the recursive `D1` call. -/
lemma ros_inner_D1 {ISI : ℝ} (h : 0 < ISI) (FMC SFC PC PDF CC CBH : ℝ) :
    (rateOfSpreadExtended FuelType.D1 ISI (-1) FMC SFC PC PDF CC CBH).ROS =
      30 * (1 - exp (-0.0232 * ISI)) ^ (1.6 : ℝ) := by
  rw [rosExt_ROS_nonC6 _ (by decide)]
  rw [buildupEffect_of_nonpos _ (by norm_num)]
  simp only [rsiOf, FuelType.aCoef, FuelType.bCoef, FuelType.c0Coef, one_mul]
  exact floor_of_pos (simpleCurve_pos (by norm_num) (by norm_num) h)

/-! ## Facts about the C6 model -/

lemma cfbC6_nonneg (RSC RSS RSO : ℝ) : 0 ≤ crownFractionBurnedC6 RSC RSS RSO := by
  unfold crownFractionBurnedC6
  split
  · exact crownFractionBurned_nonneg _ _
  · exact le_refl 0

lemma cfbC6_lt_one (RSC RSS RSO : ℝ) : crownFractionBurnedC6 RSC RSS RSO < 1 := by
  unfold crownFractionBurnedC6
  split
  · exact crownFractionBurned_lt_one _ _
  · exact one_pos

/-- Eq. 65 never drops below the surface spread rate when `CFB ≥ 0`. -/
lemma rateOfSpreadC6_ge_RSS {RSC RSS CFB : ℝ} (hCFB : 0 ≤ CFB) :
    RSS ≤ rateOfSpreadC6 RSC RSS CFB := by
  unfold rateOfSpreadC6
  split
  · rename_i h
    nlinarith
  · exact le_refl RSS

/-- Joint monotonicity of the C6 crown/surface interpolation in `(RSC, RSS)`
with the crown fraction recomputed from `RSS` at each point. -/
lemma rateOfSpreadC6_mono {c1 c2 s1 s2 RSO : ℝ} (hc : c1 ≤ c2) (hs : s1 ≤ s2) :
    rateOfSpreadC6 c1 s1 (crownFractionBurnedC6 c1 s1 RSO) ≤
      rateOfSpreadC6 c2 s2 (crownFractionBurnedC6 c2 s2 RSO) := by
  have hw1nn : 0 ≤ crownFractionBurned s1 RSO := crownFractionBurned_nonneg _ _
  have hw2nn : 0 ≤ crownFractionBurned s2 RSO := crownFractionBurned_nonneg _ _
  have hw1lt : crownFractionBurned s1 RSO < 1 := crownFractionBurned_lt_one _ _
  have hwmono : crownFractionBurned s1 RSO ≤ crownFractionBurned s2 RSO :=
    crownFractionBurned_mono RSO hs
  unfold rateOfSpreadC6 crownFractionBurnedC6
  have h1nn : 0 ≤ (if c1 > s1 ∧ s1 > RSO then crownFractionBurned s1 RSO else 0) := by
    split
    · exact hw1nn
    · exact le_refl 0
  have h1lt : (if c1 > s1 ∧ s1 > RSO then crownFractionBurned s1 RSO else 0) < 1 := by
    split
    · exact hw1lt
    · exact one_pos
  have h2nn : 0 ≤ (if c2 > s2 ∧ s2 > RSO then crownFractionBurned s2 RSO else 0) := by
    split
    · exact hw2nn
    · exact le_refl 0
  by_cases hA : c1 > s1
  · by_cases hB : c2 > s2
    · rw [if_pos hA, if_pos hB]
      by_cases hC : s1 > RSO
      · have hC2 : s2 > RSO := lt_of_lt_of_le hC hs
        rw [if_pos ⟨hA, hC⟩, if_pos ⟨hB, hC2⟩]
        nlinarith [mul_nonneg (sub_nonneg.mpr hs) (sub_nonneg.mpr hw1lt.le),
          mul_nonneg (sub_nonneg.mpr hwmono) (sub_nonneg.mpr hB.le),
          mul_nonneg hw1nn (sub_nonneg.mpr hc)]
      · rw [if_neg fun hcon => hC hcon.2]
        nlinarith [mul_nonneg h2nn (sub_nonneg.mpr hB.le)]
    · rw [if_pos hA, if_neg hB]
      have hc1s2 : c1 ≤ s2 := le_trans hc (not_lt.mp hB)
      nlinarith [mul_nonneg h1nn (sub_nonneg.mpr hc1s2)]
  · rw [if_neg hA]
    by_cases hB : c2 > s2
    · rw [if_pos hB]
      nlinarith [mul_nonneg h2nn (sub_nonneg.mpr hB.le)]
    · rw [if_neg hB]
      exact hs

lemma surfaceC6_pos {RSI : ℝ} (h : 0 < RSI) (BUI : ℝ) :
    0 < surfaceRateOfSpreadC6 RSI BUI :=
  mul_pos h (buildupEffect_pos _ _)

lemma surfaceC6_mono {RSI1 RSI2 : ℝ} (h : RSI1 ≤ RSI2) (BUI : ℝ) :
    surfaceRateOfSpreadC6 RSI1 BUI ≤ surfaceRateOfSpreadC6 RSI2 BUI :=
  mul_le_mul_of_nonneg_right h (buildupEffect_pos _ _).le

lemma intermediateC6_pos {ISI : ℝ} (h : 0 < ISI) :
    0 < intermediateSurfaceRateOfSpreadC6 ISI := by
  unfold intermediateSurfaceRateOfSpreadC6
  have := curveBase_pos (b := 0.08) (by norm_num) h
  positivity

lemma intermediateC6_mono {ISI1 ISI2 : ℝ} (h0 : 0 ≤ ISI1) (h : ISI1 ≤ ISI2) :
    intermediateSurfaceRateOfSpreadC6 ISI1 ≤ intermediateSurfaceRateOfSpreadC6 ISI2 := by
  unfold intermediateSurfaceRateOfSpreadC6
  have hb := curveBase_nonneg (b := 0.08) (by norm_num) h0
  have hm := curveBase_mono (b := 0.08) (by norm_num) h
  nlinarith [pow_le_pow_left hb hm 3]

lemma crownRateOfSpreadC6_mono {ISI1 ISI2 FMC : ℝ} (hFMC : 0 ≤ FMC) (h : ISI1 ≤ ISI2) :
    crownRateOfSpreadC6 ISI1 FMC ≤ crownRateOfSpreadC6 ISI2 FMC := by
  unfold crownRateOfSpreadC6
  have hd : (0 : ℝ) < 460 + 25.9 * FMC := by nlinarith
  have hn : (0 : ℝ) ≤ (1.5 - 0.00275 * FMC) ^ (4 : ℕ) := by positivity
  have hK : (0 : ℝ) ≤ (1.5 - 0.00275 * FMC) ^ (4 : ℕ) / (460 + 25.9 * FMC) * 1000 :=
    mul_nonneg (div_nonneg hn hd.le) (by norm_num)
  have hA : 1 - exp (-0.0497 * ISI1) ≤ 1 - exp (-0.0497 * ISI2) :=
    curveBase_mono (by norm_num) h
  rw [div_le_div_iff (by norm_num) (by norm_num)]
  nlinarith [mul_le_mul_of_nonneg_right hA hK]

/-! ## Blend helpers for the mixedwood fuels -/

lemma blend_pos {w v X Y : ℝ} (hw : 0 ≤ w) (hv : 0 ≤ v) (hsum : 0 < w + v)
    (hX : 0 < X) (hY : 0 < Y) : 0 < w * X + v * Y := by
  rcases eq_or_lt_of_le hw with h | h
  · have hv' : 0 < v := by linarith
    nlinarith
  · nlinarith

lemma blend_mono {w v X1 X2 Y1 Y2 : ℝ} (hw : 0 ≤ w) (hv : 0 ≤ v)
    (hX : X1 ≤ X2) (hY : Y1 ≤ Y2) : w * X1 + v * Y1 ≤ w * X2 + v * Y2 :=
  add_le_add (mul_le_mul_of_nonneg_left hX hw) (mul_le_mul_of_nonneg_left hY hv)

/-- Monotone step under the floor for a non-C6 fuel: positive monotone RSI. -/
lemma floorBE_mono {BE r1 r2 : ℝ} (hBE : 0 < BE) (hr1 : 0 < r1) (hr : r1 ≤ r2) :
    (if BE * r1 ≤ 0 then (0.000001 : ℝ) else BE * r1) ≤
      if BE * r2 ≤ 0 then (0.000001 : ℝ) else BE * r2 :=
  floor_mono_of_pos (mul_pos hBE hr1) (mul_le_mul_of_nonneg_left hr hBE.le)

/-- Monotonicity of the engine in `ISI` over strictly positive initial spread
indices and documented ranges of the blend/curing percentages.  This is the
workhorse behind the monotonicity claim. -/
lemma ros_mono_in_ISI (ft : FuelType) {ISI1 ISI2 : ℝ} (BUI FMC SFC PC PDF CC CBH : ℝ)
    (h0 : 0 < ISI1) (h12 : ISI1 ≤ ISI2)
    (hPC0 : 0 ≤ PC) (hPC1 : PC ≤ 100) (hPDF0 : 0 ≤ PDF) (hPDF1 : PDF ≤ 100)
    (hCC : 0 ≤ CC) (hFMC : 0 ≤ FMC) :
    (rateOfSpreadExtended ft ISI1 BUI FMC SFC PC PDF CC CBH).ROS ≤
      (rateOfSpreadExtended ft ISI2 BUI FMC SFC PC PDF CC CBH).ROS := by
  have h0' : 0 < ISI2 := lt_of_lt_of_le h0 h12
  cases ft with
  | C1 =>
      rw [rosExt_ROS_nonC6 _ (by decide), rosExt_ROS_nonC6 _ (by decide)]
      simp only [rsiOf, FuelType.aCoef, FuelType.bCoef, FuelType.c0Coef]
      exact floorBE_mono (buildupEffect_pos _ _)
        (simpleCurve_pos (by norm_num) (by norm_num) h0)
        (simpleCurve_mono (by norm_num) (by norm_num) (by norm_num) h0.le h12)
  | C2 =>
      rw [rosExt_ROS_nonC6 _ (by decide), rosExt_ROS_nonC6 _ (by decide)]
      simp only [rsiOf, FuelType.aCoef, FuelType.bCoef, FuelType.c0Coef]
      exact floorBE_mono (buildupEffect_pos _ _)
        (simpleCurve_pos (by norm_num) (by norm_num) h0)
        (simpleCurve_mono (by norm_num) (by norm_num) (by norm_num) h0.le h12)
  | C3 =>
      rw [rosExt_ROS_nonC6 _ (by decide), rosExt_ROS_nonC6 _ (by decide)]
      simp only [rsiOf, FuelType.aCoef, FuelType.bCoef, FuelType.c0Coef]
      exact floorBE_mono (buildupEffect_pos _ _)
        (simpleCurve_pos (by norm_num) (by norm_num) h0)
        (simpleCurve_mono (by norm_num) (by norm_num) (by norm_num) h0.le h12)
  | C4 =>
      rw [rosExt_ROS_nonC6 _ (by decide), rosExt_ROS_nonC6 _ (by decide)]
      simp only [rsiOf, FuelType.aCoef, FuelType.bCoef, FuelType.c0Coef]
      exact floorBE_mono (buildupEffect_pos _ _)
        (simpleCurve_pos (by norm_num) (by norm_num) h0)
        (simpleCurve_mono (by norm_num) (by norm_num) (by norm_num) h0.le h12)
  | C5 =>
      rw [rosExt_ROS_nonC6 _ (by decide), rosExt_ROS_nonC6 _ (by decide)]
      simp only [rsiOf, FuelType.aCoef, FuelType.bCoef, FuelType.c0Coef]
      exact floorBE_mono (buildupEffect_pos _ _)
        (simpleCurve_pos (by norm_num) (by norm_num) h0)
        (simpleCurve_mono (by norm_num) (by norm_num) (by norm_num) h0.le h12)
  | C7 =>
      rw [rosExt_ROS_nonC6 _ (by decide), rosExt_ROS_nonC6 _ (by decide)]
      simp only [rsiOf, FuelType.aCoef, FuelType.bCoef, FuelType.c0Coef]
      exact floorBE_mono (buildupEffect_pos _ _)
        (simpleCurve_pos (by norm_num) (by norm_num) h0)
        (simpleCurve_mono (by norm_num) (by norm_num) (by norm_num) h0.le h12)
  | D1 =>
      rw [rosExt_ROS_nonC6 _ (by decide), rosExt_ROS_nonC6 _ (by decide)]
      simp only [rsiOf, FuelType.aCoef, FuelType.bCoef, FuelType.c0Coef]
      exact floorBE_mono (buildupEffect_pos _ _)
        (simpleCurve_pos (by norm_num) (by norm_num) h0)
        (simpleCurve_mono (by norm_num) (by norm_num) (by norm_num) h0.le h12)
  | S1 =>
      rw [rosExt_ROS_nonC6 _ (by decide), rosExt_ROS_nonC6 _ (by decide)]
      simp only [rsiOf, FuelType.aCoef, FuelType.bCoef, FuelType.c0Coef]
      exact floorBE_mono (buildupEffect_pos _ _)
        (simpleCurve_pos (by norm_num) (by norm_num) h0)
        (simpleCurve_mono (by norm_num) (by norm_num) (by norm_num) h0.le h12)
  | S2 =>
      rw [rosExt_ROS_nonC6 _ (by decide), rosExt_ROS_nonC6 _ (by decide)]
      simp only [rsiOf, FuelType.aCoef, FuelType.bCoef, FuelType.c0Coef]
      exact floorBE_mono (buildupEffect_pos _ _)
        (simpleCurve_pos (by norm_num) (by norm_num) h0)
        (simpleCurve_mono (by norm_num) (by norm_num) (by norm_num) h0.le h12)
  | S3 =>
      rw [rosExt_ROS_nonC6 _ (by decide), rosExt_ROS_nonC6 _ (by decide)]
      simp only [rsiOf, FuelType.aCoef, FuelType.bCoef, FuelType.c0Coef]
      exact floorBE_mono (buildupEffect_pos _ _)
        (simpleCurve_pos (by norm_num) (by norm_num) h0)
        (simpleCurve_mono (by norm_num) (by norm_num) (by norm_num) h0.le h12)
  | M1 =>
      rw [rosExt_ROS_nonC6 _ (by decide), rosExt_ROS_nonC6 _ (by decide)]
      simp only [rsiOf]
      rw [ros_inner_C2 h0 FMC SFC PC PDF CC CBH, ros_inner_C2 h0' FMC SFC PC PDF CC CBH,
        ros_inner_D1 h0 FMC SFC PC PDF CC CBH, ros_inner_D1 h0' FMC SFC PC PDF CC CBH]
      refine floorBE_mono (buildupEffect_pos _ _) ?_ ?_
      · exact blend_pos (by linarith) (by linarith) (by linarith)
          (simpleCurve_pos (by norm_num) (by norm_num) h0)
          (simpleCurve_pos (by norm_num) (by norm_num) h0)
      · exact blend_mono (by linarith) (by linarith)
          (simpleCurve_mono (by norm_num) (by norm_num) (by norm_num) h0.le h12)
          (simpleCurve_mono (by norm_num) (by norm_num) (by norm_num) h0.le h12)
  | M2 =>
      rw [rosExt_ROS_nonC6 _ (by decide), rosExt_ROS_nonC6 _ (by decide)]
      simp only [rsiOf]
      rw [ros_inner_C2 h0 FMC SFC PC PDF CC CBH, ros_inner_C2 h0' FMC SFC PC PDF CC CBH,
        ros_inner_D1 h0 FMC SFC PC PDF CC CBH, ros_inner_D1 h0' FMC SFC PC PDF CC CBH]
      refine floorBE_mono (buildupEffect_pos _ _) ?_ ?_
      · exact blend_pos (by linarith) (by linarith) (by linarith)
          (simpleCurve_pos (by norm_num) (by norm_num) h0)
          (simpleCurve_pos (by norm_num) (by norm_num) h0)
      · exact blend_mono (by linarith) (by linarith)
          (simpleCurve_mono (by norm_num) (by norm_num) (by norm_num) h0.le h12)
          (simpleCurve_mono (by norm_num) (by norm_num) (by norm_num) h0.le h12)
  | M3 =>
      rw [rosExt_ROS_nonC6 _ (by decide), rosExt_ROS_nonC6 _ (by decide)]
      simp only [rsiOf, FuelType.aCoef, FuelType.bCoef, FuelType.c0Coef]
      rw [ros_inner_D1 h0 FMC SFC PC PDF CC CBH, ros_inner_D1 h0' FMC SFC PC PDF CC CBH]
      refine floorBE_mono (buildupEffect_pos _ _) ?_ ?_
      · exact blend_pos (by linarith) (by linarith) (by linarith)
          (simpleCurve_pos (by norm_num) (by norm_num) h0)
          (simpleCurve_pos (by norm_num) (by norm_num) h0)
      · exact blend_mono (by linarith) (by linarith)
          (simpleCurve_mono (by norm_num) (by norm_num) (by norm_num) h0.le h12)
          (simpleCurve_mono (by norm_num) (by norm_num) (by norm_num) h0.le h12)
  | M4 =>
      rw [rosExt_ROS_nonC6 _ (by decide), rosExt_ROS_nonC6 _ (by decide)]
      simp only [rsiOf, FuelType.aCoef, FuelType.bCoef, FuelType.c0Coef]
      rw [ros_inner_D1 h0 FMC SFC PC PDF CC CBH, ros_inner_D1 h0' FMC SFC PC PDF CC CBH]
      refine floorBE_mono (buildupEffect_pos _ _) ?_ ?_
      · exact blend_pos (by linarith) (by linarith) (by linarith)
          (simpleCurve_pos (by norm_num) (by norm_num) h0)
          (simpleCurve_pos (by norm_num) (by norm_num) h0)
      · exact blend_mono (by linarith) (by linarith)
          (simpleCurve_mono (by norm_num) (by norm_num) (by norm_num) h0.le h12)
          (simpleCurve_mono (by norm_num) (by norm_num) (by norm_num) h0.le h12)
  | O1A =>
      rw [rosExt_ROS_nonC6 _ (by decide), rosExt_ROS_nonC6 _ (by decide)]
      simp only [rsiOf, FuelType.aCoef, FuelType.bCoef, FuelType.c0Coef]
      rcases eq_or_lt_of_le (curingFactor_nonneg hCC) with hCF | hCF
      · rw [← hCF, mul_zero, mul_zero, mul_zero, mul_zero]
      · exact floorBE_mono (buildupEffect_pos _ _)
          (mul_pos (simpleCurve_pos (by norm_num) (by norm_num) h0) hCF)
          (mul_le_mul_of_nonneg_right
            (simpleCurve_mono (by norm_num) (by norm_num) (by norm_num) h0.le h12) hCF.le)
  | O1B =>
      rw [rosExt_ROS_nonC6 _ (by decide), rosExt_ROS_nonC6 _ (by decide)]
      simp only [rsiOf, FuelType.aCoef, FuelType.bCoef, FuelType.c0Coef]
      rcases eq_or_lt_of_le (curingFactor_nonneg hCC) with hCF | hCF
      · rw [← hCF, mul_zero, mul_zero, mul_zero, mul_zero]
      · exact floorBE_mono (buildupEffect_pos _ _)
          (mul_pos (simpleCurve_pos (by norm_num) (by norm_num) h0) hCF)
          (mul_le_mul_of_nonneg_right
            (simpleCurve_mono (by norm_num) (by norm_num) (by norm_num) h0.le h12) hCF.le)
  | C6 =>
      rw [rosExt_ROS_C6, rosExt_ROS_C6]
      have hs1 : 0 < surfaceRateOfSpreadC6 (intermediateSurfaceRateOfSpreadC6 ISI1) BUI :=
        surfaceC6_pos (intermediateC6_pos h0) BUI
      have hsm := surfaceC6_mono (intermediateC6_mono h0.le h12) BUI
      have hcm := crownRateOfSpreadC6_mono hFMC h12
      exact floor_mono_of_pos
        (lt_of_lt_of_le hs1 (rateOfSpreadC6_ge_RSS (cfbC6_nonneg _ _ _)))
        (rateOfSpreadC6_mono hcm hsm)
  | NF =>
      rw [rosExt_ROS_nonC6 _ (by decide), rosExt_ROS_nonC6 _ (by decide)]
      simp only [rsiOf]
      have hx : buildupEffect FuelType.NF BUI * (-1) ≤ 0 := by
        nlinarith [buildupEffect_pos FuelType.NF BUI]
      rw [floor_of_nonpos hx]
  | WA =>
      rw [rosExt_ROS_nonC6 _ (by decide), rosExt_ROS_nonC6 _ (by decide)]
      simp only [rsiOf]
      have hx : buildupEffect FuelType.WA BUI * (-1) ≤ 0 := by
        nlinarith [buildupEffect_pos FuelType.WA BUI]
      rw [floor_of_nonpos hx]

/-! ## Values at `ISI = 0` -/

lemma curve_at_zero {a c : ℝ} (hc : c ≠ 0) (b : ℝ) :
    a * (1 - exp (-b * 0)) ^ c = 0 := by
  rw [mul_zero, exp_zero, sub_self, Real.zero_rpow hc, mul_zero]

lemma intermediateC6_at_zero : intermediateSurfaceRateOfSpreadC6 0 = 0 := by
  unfold intermediateSurfaceRateOfSpreadC6
  rw [mul_zero, exp_zero, sub_self]
  norm_num

lemma crownC6_at_zero (FMC : ℝ) : crownRateOfSpreadC6 0 FMC = 0 := by
  unfold crownRateOfSpreadC6
  rw [mul_zero, exp_zero, sub_self]
  simp

lemma rateOfSpreadC6_zero_zero (CFB : ℝ) : rateOfSpreadC6 0 0 CFB = 0 := by
  unfold rateOfSpreadC6
  rw [if_neg (lt_irrefl 0)]


/-! ## Elementary exponential bounds and concrete curve bounds -/

lemma exp_le_inv_one_sub {x : ℝ} (hx : x < 1) : exp x ≤ (1 - x)⁻¹ := by
  have h1 : 1 - x ≤ exp (-x) := by
    have := Real.add_one_le_exp (-x)
    linarith
  have h2 : (0 : ℝ) < 1 - x := by linarith
  have h3 : (exp (-x))⁻¹ ≤ (1 - x)⁻¹ := inv_le_inv_of_le h2 h1
  rwa [Real.exp_neg, inv_inv] at h3

lemma exp_neg_le_inv_one_add {y : ℝ} (hy : -1 < y) : exp (-y) ≤ (1 + y)⁻¹ := by
  have h1 : 1 + y ≤ exp y := by
    have := Real.add_one_le_exp y
    linarith
  have h2 : (0 : ℝ) < 1 + y := by linarith
  have h3 : (exp y)⁻¹ ≤ (1 + y)⁻¹ := inv_le_inv_of_le h2 h1
  rwa [← Real.exp_neg] at h3

lemma BE_M1_60_lb : (1.036 : ℝ) ≤ buildupEffect FuelType.M1 60 := by
  unfold buildupEffect
  rw [if_pos (by norm_num [FuelType.BUIo])]
  simp only [FuelType.Q, FuelType.BUIo]
  have h1 : ((1.036 : ℝ)) ^ (6 : ℕ) ≤ ((0.8 : ℝ))⁻¹ := by norm_num
  have h2 : log (((1.036 : ℝ)) ^ (6 : ℕ)) ≤ log ((0.8 : ℝ))⁻¹ :=
    Real.log_le_log (by positivity) h1
  rw [Real.log_pow, Real.log_inv] at h2
  have h3 : 50 * log (0.8 : ℝ) * (1 / 60 - 1 / 50) = -log (0.8 : ℝ) / 6 := by ring
  rw [h3]
  have h4 : log (1.036 : ℝ) ≤ -log (0.8 : ℝ) / 6 := by
    push_cast at h2
    linarith
  calc (1.036 : ℝ) = exp (log 1.036) := (Real.exp_log (by norm_num)).symm
    _ ≤ exp (-log (0.8 : ℝ) / 6) := exp_le_exp.mpr h4

lemma BE_C2_60_ub : buildupEffect FuelType.C2 60 ≤ 64 / 65 := by
  unfold buildupEffect
  rw [if_pos (by norm_num [FuelType.BUIo])]
  simp only [FuelType.Q, FuelType.BUIo]
  have hlog : (0.3 : ℝ) ≤ log ((0.7 : ℝ))⁻¹ := by
    rw [Real.le_log_iff_exp_le (by norm_num)]
    calc exp (0.3 : ℝ) ≤ (1 - 0.3)⁻¹ := exp_le_inv_one_sub (by norm_num)
      _ = ((0.7 : ℝ))⁻¹ := by norm_num
  have h3 : 50 * log (0.7 : ℝ) * (1 / 60 - 1 / 64) = -(log ((0.7 : ℝ))⁻¹ * (5 / 96)) := by
    rw [Real.log_inv]
    ring
  rw [h3]
  have h4 : -(log ((0.7 : ℝ))⁻¹ * (5 / 96)) ≤ -(1 / 64 : ℝ) := by nlinarith
  calc exp (-(log ((0.7 : ℝ))⁻¹ * (5 / 96))) ≤ exp (-(1 / 64 : ℝ)) := exp_le_exp.mpr h4
    _ ≤ (1 + 1 / 64)⁻¹ := exp_neg_le_inv_one_add (by norm_num)
    _ = 64 / 65 := by norm_num

lemma BE_D1_60_ub : buildupEffect FuelType.D1 60 ≤ 432 / 397 := by
  unfold buildupEffect
  rw [if_pos (by norm_num [FuelType.BUIo])]
  simp only [FuelType.Q, FuelType.BUIo]
  have hpos : (0 : ℝ) < ((0.9 : ℝ))⁻¹ := by norm_num
  have hlog : log ((0.9 : ℝ))⁻¹ ≤ 1 / 9 := by
    have h := Real.log_le_sub_one_of_pos hpos
    have : ((0.9 : ℝ))⁻¹ - 1 = 1 / 9 := by norm_num
    linarith
  have hlog0 : (0 : ℝ) ≤ log ((0.9 : ℝ))⁻¹ := Real.log_nonneg (by norm_num)
  have h3 : 50 * log (0.9 : ℝ) * (1 / 60 - 1 / 32) = log ((0.9 : ℝ))⁻¹ * (35 / 48) := by
    rw [Real.log_inv]
    ring
  rw [h3]
  have h4 : log ((0.9 : ℝ))⁻¹ * (35 / 48) ≤ 35 / 432 := by nlinarith
  calc exp (log ((0.9 : ℝ))⁻¹ * (35 / 48)) ≤ exp ((35 : ℝ) / 432) := exp_le_exp.mpr h4
    _ ≤ (1 - 35 / 432)⁻¹ := exp_le_inv_one_sub (by norm_num)
    _ = 432 / 397 := by norm_num

lemma R2_lb : (11.33 : ℝ) ≤ 110 * (1 - exp (-0.0282 * 10)) ^ ((1.5 : ℝ)) := by
  have hsh : (-0.0282 : ℝ) * 10 = -(0.282) := by norm_num
  have hE : exp (-(0.282 : ℝ)) ≤ (1 + 0.282)⁻¹ := exp_neg_le_inv_one_add (by norm_num)
  have hx_lb : (0.2199 : ℝ) ≤ 1 - exp (-0.0282 * 10) := by
    rw [hsh]
    have hq : ((1 : ℝ) + 0.282)⁻¹ ≤ 0.7801 := by norm_num
    linarith
  have hx_pos : (0 : ℝ) < 1 - exp (-0.0282 * 10) := lt_of_lt_of_le (by norm_num) hx_lb
  have ha_pos : 0 < (1 - exp (-0.0282 * 10)) ^ ((1.5 : ℝ)) := Real.rpow_pos_of_pos hx_pos _
  have ha_sq : (1 - exp (-0.0282 * 10)) ^ ((1.5 : ℝ)) * (1 - exp (-0.0282 * 10)) ^ ((1.5 : ℝ))
      = (1 - exp (-0.0282 * 10)) ^ (3 : ℕ) := by
    rw [← Real.rpow_add hx_pos]
    norm_num
    rw [show ((3 : ℝ) = ((3 : ℕ) : ℝ)) from by norm_num, Real.rpow_natCast]
  have hx3 : (0.2199 : ℝ) ^ (3 : ℕ) ≤ (1 - exp (-0.0282 * 10)) ^ (3 : ℕ) :=
    pow_le_pow_left (by norm_num) hx_lb 3
  have ha_lb : (0.103 : ℝ) ≤ (1 - exp (-0.0282 * 10)) ^ ((1.5 : ℝ)) := by
    nlinarith [ha_sq, hx3, ha_pos.le]
  linarith

lemma R1_pos : (0 : ℝ) < 30 * (1 - exp (-0.0232 * 10)) ^ ((1.6 : ℝ)) :=
  simpleCurve_pos (by norm_num) (by norm_num) (by norm_num)

lemma R1_ub : 30 * (1 - exp (-0.0232 * 10)) ^ ((1.6 : ℝ)) ≤ 6.96 := by
  have hy_pos : (0 : ℝ) < 1 - exp (-0.0232 * 10) := curveBase_pos (by norm_num) (by norm_num)
  have hy_lt1 : 1 - exp (-0.0232 * 10) < 1 := curveBase_lt_one _ _
  have hr : (1 - exp (-0.0232 * 10)) ^ ((1.6 : ℝ)) ≤ (1 - exp (-0.0232 * 10)) ^ ((1 : ℝ)) :=
    Real.rpow_le_rpow_of_exponent_ge hy_pos hy_lt1.le (by norm_num)
  rw [Real.rpow_one] at hr
  have hy_ub : 1 - exp (-0.0232 * 10) ≤ 0.232 := by
    have h1 := Real.add_one_le_exp ((-0.0232 : ℝ) * 10)
    nlinarith
  nlinarith


/-! ## Claims -/

/-- C3: For the C6 fuel type the crown fraction burned is positive exactly
when the three-way ordering `RSC > RSS > RSO` holds; if either inequality
fails it is exactly `0`, and when both hold it equals
`crownFractionBurned RSS RSO`. -/
theorem C3_c6_cfb_ordering (RSC RSS RSO : ℝ) :
    (0 < crownFractionBurnedC6 RSC RSS RSO ↔ (RSC > RSS ∧ RSS > RSO)) ∧
    ((RSC > RSS ∧ RSS > RSO) →
      crownFractionBurnedC6 RSC RSS RSO = crownFractionBurned RSS RSO) ∧
    (¬(RSC > RSS ∧ RSS > RSO) → crownFractionBurnedC6 RSC RSS RSO = 0) := by
  refine ⟨⟨?_, ?_⟩, ?_, ?_⟩
  · intro hpos
    by_contra hcon
    unfold crownFractionBurnedC6 at hpos
    rw [if_neg hcon] at hpos
    exact lt_irrefl 0 hpos
  · rintro ⟨h1, h2⟩
    unfold crownFractionBurnedC6
    rw [if_pos ⟨h1, h2⟩]
    exact crownFractionBurned_pos h2
  · intro h
    unfold crownFractionBurnedC6
    rw [if_pos h]
  · intro h
    unfold crownFractionBurnedC6
    rw [if_neg h]

/-- Witness for C3 at `RSC = 3, RSS = 2, RSO = 1`. -/
theorem C3_witness :
    crownFractionBurnedC6 3 2 1 = crownFractionBurned 2 1 ∧
      0 < crownFractionBurnedC6 3 2 1 :=
  ⟨(C3_c6_cfb_ordering 3 2 1).2.1 ⟨by norm_num, by norm_num⟩,
    (C3_c6_cfb_ordering 3 2 1).1.mpr ⟨by norm_num, by norm_num⟩⟩

/-- C4: `buildupEffect` returns exactly `1` whenever `BUI ≤ 0` (in particular
for the `-1` sentinel) or the fuel's reference `BUIo ≤ 0`, and otherwise
`exp (50 * ln Q * (1/BUI - 1/BUIo))` with that fuel's `Q` and `BUIo`. -/
theorem C4_buildupEffect_rule (ft : FuelType) (BUI : ℝ) :
    ((BUI ≤ 0 ∨ ft.BUIo ≤ 0) → buildupEffect ft BUI = 1) ∧
    (0 < BUI → 0 < ft.BUIo →
      buildupEffect ft BUI = exp (50 * log ft.Q * (1 / BUI - 1 / ft.BUIo))) := by
  constructor
  · intro h
    unfold buildupEffect
    rw [if_neg]
    rintro ⟨h1, h2⟩
    rcases h with h | h
    · exact absurd h (not_le.mpr h1)
    · exact absurd h (not_le.mpr h2)
  · intro h1 h2
    unfold buildupEffect
    rw [if_pos ⟨h1, h2⟩]

/-- Witness for C4: the disabled sentinel `BUI = -1` yields factor `1`, and a
positive `BUI` yields the closed-form factor. -/
theorem C4_witness :
    buildupEffect FuelType.O1A (-1) = 1 ∧
      buildupEffect FuelType.C2 60 =
        exp (50 * log FuelType.C2.Q * (1 / 60 - 1 / FuelType.C2.BUIo)) :=
  ⟨(C4_buildupEffect_rule FuelType.O1A (-1)).1 (Or.inl (by norm_num)),
    (C4_buildupEffect_rule FuelType.C2 60).2 (by norm_num)
      (by norm_num [FuelType.BUIo])⟩

/-- C7: in the slope-adjustment wind inversion, `WSE > 40` switches to the
inverted high-wind branch, and at or above the clamp threshold
`0.999*2.496*fF` the ceiling `112.45` is returned; `WSE ≤ 40` is passed
through unchanged. -/
theorem C7_wse_branches (ISF fF : ℝ) :
    (slopeWSE ISF fF > 40 → ISF < 0.999 * 2.496 * fF →
      slopeAdjustedWSE (slopeWSE ISF fF) ISF fF =
        28 - 1 / 0.0818 * log (1 - ISF / (2.496 * fF))) ∧
    (slopeWSE ISF fF > 40 → ISF ≥ 0.999 * 2.496 * fF →
      slopeAdjustedWSE (slopeWSE ISF fF) ISF fF = 112.45) ∧
    (slopeWSE ISF fF ≤ 40 →
      slopeAdjustedWSE (slopeWSE ISF fF) ISF fF = slopeWSE ISF fF) := by
  refine ⟨?_, ?_, ?_⟩
  · intro h1 h2
    unfold slopeAdjustedWSE
    rw [if_pos ⟨h1, h2⟩]
  · intro h1 h2
    unfold slopeAdjustedWSE
    rw [if_neg fun hcon => absurd h2 (not_le.mpr hcon.2), if_pos ⟨h1, h2⟩]
  · intro h1
    unfold slopeAdjustedWSE
    rw [if_neg fun hcon => absurd h1 (not_le.mpr hcon.1),
      if_neg fun hcon => absurd h1 (not_le.mpr hcon.1)]

/-- Witness for C7 in the pass-through branch (`ISF = 0.208`, `fF = 1`,
where `WSE = 0`). -/
theorem C7_witness :
    slopeAdjustedWSE (slopeWSE 0.208 1) 0.208 1 = slopeWSE 0.208 1 := by
  apply (C7_wse_branches 0.208 1).2.2
  unfold slopeWSE
  norm_num

/-- C8: `crownFractionBurned` equals `1 - exp(-0.23*(ROS-RSO))` when
`ROS > RSO` and `0` otherwise, is non-decreasing in `ROS` for fixed `RSO`,
and always lies in `[0, 1)`. -/
theorem C8_crownFractionBurned_props (ROS RSO : ℝ) :
    (ROS > RSO → crownFractionBurned ROS RSO = 1 - exp (-0.23 * (ROS - RSO))) ∧
    (ROS ≤ RSO → crownFractionBurned ROS RSO = 0) ∧
    (∀ R1 R2 : ℝ, R1 ≤ R2 → crownFractionBurned R1 RSO ≤ crownFractionBurned R2 RSO) ∧
    0 ≤ crownFractionBurned ROS RSO ∧ crownFractionBurned ROS RSO < 1 := by
  refine ⟨?_, ?_, fun R1 R2 h => crownFractionBurned_mono RSO h,
    crownFractionBurned_nonneg _ _, crownFractionBurned_lt_one _ _⟩
  · intro h
    unfold crownFractionBurned
    rw [if_pos h]
  · intro h
    unfold crownFractionBurned
    rw [if_neg (not_lt.mpr h)]

/-- Witness for C8 at concrete points on both sides of the threshold. -/
theorem C8_witness :
    crownFractionBurned 2 1 = 1 - exp (-0.23 * (2 - 1)) ∧
      crownFractionBurned 0 1 = 0 ∧
      crownFractionBurned 1 5 ≤ crownFractionBurned 3 5 ∧
      0 ≤ crownFractionBurned 2 1 ∧ crownFractionBurned 2 1 < 1 :=
  ⟨(C8_crownFractionBurned_props 2 1).1 (by norm_num),
    (C8_crownFractionBurned_props 0 1).2.1 (by norm_num),
    (C8_crownFractionBurned_props 1 5).2.2.1 1 3 (by norm_num),
    (C8_crownFractionBurned_props 2 1).2.2.2.1,
    (C8_crownFractionBurned_props 2 1).2.2.2.2⟩

/-- C2 counterexample: the claim asserts `ROS = 1e-6` at `ISI = 0` for every
one of the 17 fuel types.  For `M1` (PC = 50, BUI = 60) the recursive blend
floors its `C2`/`D1` sub-results to `1e-6` first, so `RSI = 1e-6 ≠ 0` and the
returned `ROS` is `buildupEffect(M1,60) * 1e-6 ≠ 1e-6`. -/
theorem C2_cex :
    (rateOfSpreadExtended FuelType.M1 0 60 95 1 50 35 80 7).ROS ≠ 0.000001 := by
  rw [rosExt_ROS_nonC6 _ (by decide)]
  simp only [rsiOf]
  have hC2 : (rateOfSpreadExtended FuelType.C2 0 (-1) (95 : ℝ) 1 50 35 80 7).ROS
      = 0.000001 := by
    rw [rosExt_ROS_nonC6 _ (by decide)]
    simp only [rsiOf, FuelType.aCoef, FuelType.bCoef, FuelType.c0Coef]
    rw [curve_at_zero (by norm_num), mul_zero]
    exact floor_of_nonpos le_rfl
  have hD1 : (rateOfSpreadExtended FuelType.D1 0 (-1) (95 : ℝ) 1 50 35 80 7).ROS
      = 0.000001 := by
    rw [rosExt_ROS_nonC6 _ (by decide)]
    simp only [rsiOf, FuelType.aCoef, FuelType.bCoef, FuelType.c0Coef]
    rw [curve_at_zero (by norm_num), mul_zero]
    exact floor_of_nonpos le_rfl
  rw [hC2, hD1]
  have harg : (50 : ℝ) / 100 * 0.000001 + (100 - 50) / 100 * 0.000001 = 0.000001 := by
    norm_num
  rw [harg]
  have hBE := buildupEffect_pos FuelType.M1 60
  have hpos : 0 < buildupEffect FuelType.M1 60 * 0.000001 := by nlinarith
  rw [floor_of_pos hpos]
  intro hcon
  have hBE1 : buildupEffect FuelType.M1 60 = 1 := by
    have h1 : buildupEffect FuelType.M1 60 * 0.000001 = 1 * 0.000001 := by
      rw [hcon, one_mul]
    exact mul_right_cancel₀ (by norm_num) h1
  unfold buildupEffect at hBE1
  rw [if_pos (by norm_num [FuelType.BUIo])] at hBE1
  rw [Real.exp_eq_one_iff] at hBE1
  simp only [FuelType.Q, FuelType.BUIo] at hBE1
  have hsplit : log (0.8 : ℝ) * (-1 / 6) = 0 := by
    rw [← hBE1]
    ring
  rcases mul_eq_zero.mp hsplit with h | h
  · exact (Real.log_neg (by norm_num) (by norm_num)).ne h
  · norm_num at h

/-- C2 (amended): at `ISI = 0` the raw curve value `RSI` is `0` and the
returned `ROS` is exactly `1e-6` for the thirteen non-mixedwood fuel types
(the mixedwood blends floor their recursive sub-results first, so their RSI
at `ISI = 0` is a multiple of `1e-6`); and for every fuel type and all real
inputs the engine never returns `ROS ≤ 0`. -/
theorem C2_isi_zero_amended :
    (∀ ft ∈ [FuelType.C1, FuelType.C2, FuelType.C3, FuelType.C4, FuelType.C5,
        FuelType.C6, FuelType.C7, FuelType.D1, FuelType.S1, FuelType.S2,
        FuelType.S3, FuelType.O1A, FuelType.O1B],
      ∀ BUI FMC SFC PC PDF CC CBH : ℝ,
        rsiOf ft 0 FMC SFC PC PDF CC CBH = 0 ∧
        (rateOfSpreadExtended ft 0 BUI FMC SFC PC PDF CC CBH).ROS = 0.000001) ∧
    (∀ (ft : FuelType) (ISI BUI FMC SFC PC PDF CC CBH : ℝ),
      0 < (rateOfSpreadExtended ft ISI BUI FMC SFC PC PDF CC CBH).ROS) := by
  constructor
  · intro ft hft BUI FMC SFC PC PDF CC CBH
    fin_cases hft
    case _ =>  -- C1
      constructor
      · simp only [rsiOf, FuelType.aCoef, FuelType.bCoef, FuelType.c0Coef]
        exact curve_at_zero (by norm_num) _
      · rw [rosExt_ROS_nonC6 _ (by decide)]
        simp only [rsiOf, FuelType.aCoef, FuelType.bCoef, FuelType.c0Coef]
        rw [curve_at_zero (by norm_num), mul_zero]
        exact floor_of_nonpos le_rfl
    case _ =>  -- C2
      constructor
      · simp only [rsiOf, FuelType.aCoef, FuelType.bCoef, FuelType.c0Coef]
        exact curve_at_zero (by norm_num) _
      · rw [rosExt_ROS_nonC6 _ (by decide)]
        simp only [rsiOf, FuelType.aCoef, FuelType.bCoef, FuelType.c0Coef]
        rw [curve_at_zero (by norm_num), mul_zero]
        exact floor_of_nonpos le_rfl
    case _ =>  -- C3
      constructor
      · simp only [rsiOf, FuelType.aCoef, FuelType.bCoef, FuelType.c0Coef]
        exact curve_at_zero (by norm_num) _
      · rw [rosExt_ROS_nonC6 _ (by decide)]
        simp only [rsiOf, FuelType.aCoef, FuelType.bCoef, FuelType.c0Coef]
        rw [curve_at_zero (by norm_num), mul_zero]
        exact floor_of_nonpos le_rfl
    case _ =>  -- C4
      constructor
      · simp only [rsiOf, FuelType.aCoef, FuelType.bCoef, FuelType.c0Coef]
        exact curve_at_zero (by norm_num) _
      · rw [rosExt_ROS_nonC6 _ (by decide)]
        simp only [rsiOf, FuelType.aCoef, FuelType.bCoef, FuelType.c0Coef]
        rw [curve_at_zero (by norm_num), mul_zero]
        exact floor_of_nonpos le_rfl
    case _ =>  -- C5
      constructor
      · simp only [rsiOf, FuelType.aCoef, FuelType.bCoef, FuelType.c0Coef]
        exact curve_at_zero (by norm_num) _
      · rw [rosExt_ROS_nonC6 _ (by decide)]
        simp only [rsiOf, FuelType.aCoef, FuelType.bCoef, FuelType.c0Coef]
        rw [curve_at_zero (by norm_num), mul_zero]
        exact floor_of_nonpos le_rfl
    case _ =>  -- C6
      constructor
      · simp only [rsiOf]
        exact intermediateC6_at_zero
      · rw [rosExt_ROS_C6, intermediateC6_at_zero, crownC6_at_zero]
        unfold surfaceRateOfSpreadC6
        rw [zero_mul, rateOfSpreadC6_zero_zero]
        exact floor_of_nonpos le_rfl
    case _ =>  -- C7
      constructor
      · simp only [rsiOf, FuelType.aCoef, FuelType.bCoef, FuelType.c0Coef]
        exact curve_at_zero (by norm_num) _
      · rw [rosExt_ROS_nonC6 _ (by decide)]
        simp only [rsiOf, FuelType.aCoef, FuelType.bCoef, FuelType.c0Coef]
        rw [curve_at_zero (by norm_num), mul_zero]
        exact floor_of_nonpos le_rfl
    case _ =>  -- D1
      constructor
      · simp only [rsiOf, FuelType.aCoef, FuelType.bCoef, FuelType.c0Coef]
        exact curve_at_zero (by norm_num) _
      · rw [rosExt_ROS_nonC6 _ (by decide)]
        simp only [rsiOf, FuelType.aCoef, FuelType.bCoef, FuelType.c0Coef]
        rw [curve_at_zero (by norm_num), mul_zero]
        exact floor_of_nonpos le_rfl
    case _ =>  -- S1
      constructor
      · simp only [rsiOf, FuelType.aCoef, FuelType.bCoef, FuelType.c0Coef]
        exact curve_at_zero (by norm_num) _
      · rw [rosExt_ROS_nonC6 _ (by decide)]
        simp only [rsiOf, FuelType.aCoef, FuelType.bCoef, FuelType.c0Coef]
        rw [curve_at_zero (by norm_num), mul_zero]
        exact floor_of_nonpos le_rfl
    case _ =>  -- S2
      constructor
      · simp only [rsiOf, FuelType.aCoef, FuelType.bCoef, FuelType.c0Coef]
        exact curve_at_zero (by norm_num) _
      · rw [rosExt_ROS_nonC6 _ (by decide)]
        simp only [rsiOf, FuelType.aCoef, FuelType.bCoef, FuelType.c0Coef]
        rw [curve_at_zero (by norm_num), mul_zero]
        exact floor_of_nonpos le_rfl
    case _ =>  -- S3
      constructor
      · simp only [rsiOf, FuelType.aCoef, FuelType.bCoef, FuelType.c0Coef]
        exact curve_at_zero (by norm_num) _
      · rw [rosExt_ROS_nonC6 _ (by decide)]
        simp only [rsiOf, FuelType.aCoef, FuelType.bCoef, FuelType.c0Coef]
        rw [curve_at_zero (by norm_num), mul_zero]
        exact floor_of_nonpos le_rfl
    case _ =>  -- O1A
      constructor
      · simp only [rsiOf, FuelType.aCoef, FuelType.bCoef, FuelType.c0Coef]
        rw [curve_at_zero (by norm_num), zero_mul]
      · rw [rosExt_ROS_nonC6 _ (by decide)]
        simp only [rsiOf, FuelType.aCoef, FuelType.bCoef, FuelType.c0Coef]
        rw [curve_at_zero (by norm_num), zero_mul, mul_zero]
        exact floor_of_nonpos le_rfl
    case _ =>  -- O1B
      constructor
      · simp only [rsiOf, FuelType.aCoef, FuelType.bCoef, FuelType.c0Coef]
        rw [curve_at_zero (by norm_num), zero_mul]
      · rw [rosExt_ROS_nonC6 _ (by decide)]
        simp only [rsiOf, FuelType.aCoef, FuelType.bCoef, FuelType.c0Coef]
        rw [curve_at_zero (by norm_num), zero_mul, mul_zero]
        exact floor_of_nonpos le_rfl
  · intro ft ISI BUI FMC SFC PC PDF CC CBH
    cases ft
    case C6 =>
      rw [rosExt_ROS_C6]
      exact floor_pos _
    all_goals
      rw [rosExt_ROS_nonC6 _ (by decide)]
      exact floor_pos _

/-- Witness for C2 (amended) at `C2, ISI = 0, BUI = 60` and positivity at
`C1, ISI = 5`. -/
theorem C2_witness :
    rsiOf FuelType.C2 0 95 1 50 35 80 7 = 0 ∧
      (rateOfSpreadExtended FuelType.C2 0 60 95 1 50 35 80 7).ROS = 0.000001 ∧
      0 < (rateOfSpreadExtended FuelType.C1 5 60 95 1 50 35 80 7).ROS :=
  ⟨(C2_isi_zero_amended.1 FuelType.C2 (by simp) 60 95 1 50 35 80 7).1,
    (C2_isi_zero_amended.1 FuelType.C2 (by simp) 60 95 1 50 35 80 7).2,
    C2_isi_zero_amended.2 FuelType.C1 5 60 95 1 50 35 80 7⟩

/-- C5 counterexample: the returned `ROS` is **not** globally non-decreasing
in `ISI`.  At `ISI = 0` the zero pre-floor value is floored up to `1e-6`,
while at `ISI = 1e-5` the genuine curve value is positive but far below
`1e-6`, so the output decreases (C2, `BUI = 0` so the buildup factor is 1). -/
theorem C5_cex :
    ¬ ((rateOfSpreadExtended FuelType.C2 0 0 95 1 50 35 80 7).ROS ≤
        (rateOfSpreadExtended FuelType.C2 0.00001 0 95 1 50 35 80 7).ROS) := by
  have hL : (rateOfSpreadExtended FuelType.C2 0 0 (95 : ℝ) 1 50 35 80 7).ROS
      = 0.000001 := by
    rw [rosExt_ROS_nonC6 _ (by decide)]
    simp only [rsiOf, FuelType.aCoef, FuelType.bCoef, FuelType.c0Coef]
    rw [curve_at_zero (by norm_num), mul_zero]
    exact floor_of_nonpos le_rfl
  have hx_pos : 0 < 1 - exp (-(0.0282 : ℝ) * 0.00001) :=
    curveBase_pos (by norm_num) (by norm_num)
  have hx_le : 1 - exp (-(0.0282 : ℝ) * 0.00001) ≤ 2.82e-7 := by
    have h1 := Real.add_one_le_exp (-(0.0282 : ℝ) * 0.00001)
    nlinarith
  set x := 1 - exp (-(0.0282 : ℝ) * 0.00001) with hxdef
  have ha_pos : 0 < x ^ (1.5 : ℝ) := Real.rpow_pos_of_pos hx_pos _
  have ha_sq : x ^ (1.5 : ℝ) * x ^ (1.5 : ℝ) = x ^ (3 : ℕ) := by
    rw [← Real.rpow_add hx_pos]
    norm_num
    rw [show ((3 : ℝ) = ((3 : ℕ) : ℝ)) by norm_num, Real.rpow_natCast]
  have hx3 : x ^ (3 : ℕ) ≤ (2.82e-7 : ℝ) ^ (3 : ℕ) :=
    pow_le_pow_left hx_pos.le hx_le 3
  have ha_le : x ^ (1.5 : ℝ) ≤ 1.7e-10 := by
    nlinarith [ha_sq, hx3, ha_pos.le]
  have hR : (rateOfSpreadExtended FuelType.C2 0.00001 0 (95 : ℝ) 1 50 35 80 7).ROS
      = 110 * x ^ (1.5 : ℝ) := by
    rw [rosExt_ROS_nonC6 _ (by decide)]
    simp only [rsiOf, FuelType.aCoef, FuelType.bCoef, FuelType.c0Coef]
    rw [buildupEffect_of_nonpos _ le_rfl, one_mul]
    exact floor_of_pos (simpleCurve_pos (by norm_num) (by norm_num) (by norm_num))
  rw [hL, hR]
  push_neg
  nlinarith [ha_le, ha_pos]

/-- C5 (amended): with the blend/curing percentages in their documented
ranges and `FMC ≥ 0`, the returned `ROS` is non-decreasing in `ISI` over
strictly positive `ISI` (at `ISI = 0` the `1e-6` floor can exceed nearby
genuine curve values, as the counterexample shows). -/
theorem C5_ros_monotone_amended (ft : FuelType) (ISI1 ISI2 BUI FMC SFC PC PDF CC CBH : ℝ)
    (h0 : 0 < ISI1) (h12 : ISI1 ≤ ISI2) (hPC0 : 0 ≤ PC) (hPC1 : PC ≤ 100)
    (hPDF0 : 0 ≤ PDF) (hPDF1 : PDF ≤ 100) (hCC : 0 ≤ CC) (hFMC : 0 ≤ FMC) :
    rateOfSpread ft ISI1 BUI FMC SFC PC PDF CC CBH ≤
      rateOfSpread ft ISI2 BUI FMC SFC PC PDF CC CBH :=
  ros_mono_in_ISI ft BUI FMC SFC PC PDF CC CBH h0 h12 hPC0 hPC1 hPDF0 hPDF1 hCC hFMC

/-- Witness for C5 (amended) for the C6 fuel at `ISI = 1 ≤ 2`. -/
theorem C5_witness :
    rateOfSpread FuelType.C6 1 60 95 1 50 35 80 7 ≤
      rateOfSpread FuelType.C6 2 60 95 1 50 35 80 7 :=
  C5_ros_monotone_amended FuelType.C6 1 2 60 95 1 50 35 80 7 (by norm_num)
    (by norm_num) (by norm_num) (by norm_num) (by norm_num) (by norm_num)
    (by norm_num) (by norm_num)

/-- C9 counterexample: in a batched `slopeAdjustment` call, changing
*another* observation's fuel type to `NF` changes this observation's output
(the source nulls the entire batch when any observation is `NF`/`WA`). -/
theorem C9_cex :
    (slopeAdjustment [obsC2, obsC2]).get? 0 ≠ (slopeAdjustment [obsC2, obsNF]).get? 0 := by
  unfold slopeAdjustment
  rw [if_neg (by decide), if_pos (by decide)]
  simp

/-- C9 (amended): provided no observation of either batch is non-fuel/water,
each observation's result depends only on that observation's own inputs:
batches agreeing at index `i` produce the same output at index `i`. -/
theorem C9_batch_independence_amended (b1 b2 : List SlopeObs) (i : ℕ)
    (h1 : hasNonFuel b1 = false) (h2 : hasNonFuel b2 = false)
    (hobs : b1.get? i = b2.get? i) :
    (slopeAdjustment b1).get? i = (slopeAdjustment b2).get? i := by
  unfold slopeAdjustment
  rw [if_neg (by simp [h1]), if_neg (by simp [h2])]
  rw [List.get?_map, List.get?_map, hobs]

/-- Witness for C9 (amended): two single-observation batches agreeing at
index 0. -/
theorem C9_witness :
    (slopeAdjustment [obsC2]).get? 0 = (slopeAdjustment [obsC2]).get? 0 :=
  C9_batch_independence_amended [obsC2] [obsC2] 0 (by decide) (by decide) rfl

lemma slopeAdjustment_eq_nil_iff (obs : List SlopeObs) :
    slopeAdjustment obs = [] ↔ obs = [] := by
  unfold slopeAdjustment
  split <;> simp

/-- C10 counterexample: `Slopecalc` also throws on an *empty* batch with the
perfectly valid output selector `"RAZ"` (the source dereferences
`values[0]`), refuting "throws iff the output argument is invalid". -/
theorem C10_cex :
    Slopecalc [] "RAZ" = Except.error "TypeError: values[0] is undefined" ∧
      "RAZ" ∈ validOutTypes :=
  ⟨rfl, by simp [validOutTypes]⟩

/-- C10 (amended): `Slopecalc` throws exactly when the output selector is
invalid or the batch is empty; on a valid selector and non-empty batch it
returns the full `slopeAdjustment` array, and the choice among the valid
selectors has no effect on the result. -/
theorem C10_slopecalc_amended (obs : List SlopeObs) (out : String) :
    ((∃ e, Slopecalc obs out = Except.error e) ↔ (out ∉ validOutTypes ∨ obs = [])) ∧
    (out ∈ validOutTypes → obs ≠ [] →
      Slopecalc obs out = Except.ok (slopeAdjustment obs)) ∧
    (∀ out2 ∈ validOutTypes, out ∈ validOutTypes →
      Slopecalc obs out = Slopecalc obs out2) := by
  have herr : ∀ o ∈ validOutTypes, obs = [] →
      Slopecalc obs o = Except.error "TypeError: values[0] is undefined" := by
    intro o ho hnil
    subst hnil
    unfold Slopecalc
    rw [if_neg (not_not_intro ho)]
    rfl
  have hok : ∀ o ∈ validOutTypes, obs ≠ [] →
      Slopecalc obs o = Except.ok (slopeAdjustment obs) := by
    intro o ho hnil
    unfold Slopecalc
    rw [if_neg (not_not_intro ho)]
    rcases h : slopeAdjustment obs with _ | ⟨v, vs⟩
    · exact absurd ((slopeAdjustment_eq_nil_iff obs).mp h) hnil
    · rfl
  refine ⟨⟨?_, ?_⟩, ?_, ?_⟩
  · rintro ⟨e, he⟩
    by_cases hv : out ∈ validOutTypes
    · by_cases hnil : obs = []
      · exact Or.inr hnil
      · rw [hok out hv hnil] at he
        exact absurd he (by simp)
    · exact Or.inl hv
  · intro h
    by_cases hv : out ∈ validOutTypes
    · rcases h with h | h
      · exact absurd hv h
      · exact ⟨_, herr out hv h⟩
    · refine ⟨"invalid output type", ?_⟩
      unfold Slopecalc
      rw [if_pos hv]
  · intro hv hnil
    exact hok out hv hnil
  · intro out2 h2 hv
    by_cases hnil : obs = []
    · rw [herr out hv hnil, herr out2 h2 hnil]
    · rw [hok out hv hnil, hok out2 h2 hnil]

/-- Witness for C10 (amended): a one-observation batch with the valid
selector `"WSV"` returns the full slope-adjustment array. -/
theorem C10_witness :
    Slopecalc [obsC2] "WSV" = Except.ok (slopeAdjustment [obsC2]) :=
  (C10_slopecalc_amended [obsC2] "WSV").2.1 (by simp [validOutTypes]) (by simp)

/-- C6 (code bug): the slope module's fine-fuel moisture `m = 101 - FFMC`
disagrees with the moisture `fm = 59.5*(101-FFMC)/(59.5+FFMC)` used by
`initialSpreadIndex` to build the forward `ISZ` (here at `FFMC = 85`:
`16` versus `≈6.59`).  The wind-speed inversion therefore divides `ISF` by a
different `fF` than the one that produced it, so at `GS = 0` the returned
`WSV` is not the original `WS` as the spec's round-trip property requires. -/
theorem C6_moisture_mismatch :
    slopeFineFuelMoisture 85 ≠ isiFineFuelMoisture 85 := by
  unfold slopeFineFuelMoisture isiFineFuelMoisture
  norm_num

/-- C1 counterexample: `RSS_M1` at `PC = 50, ISI = 10, BUI = 60` is **not**
the average of the C2 and D1 engine results at the same `ISI, BUI`: the
engine applies `buildupEffect(M1, 60)` to the blend of *raw* (buildup-free)
C2/D1 rates, while the C2-only and D1-only runs apply their own, different,
buildup factors (`BUIo/Q` differ per fuel). -/
theorem C1_cex :
    (rateOfSpreadExtended FuelType.M1 10 60 95 1 50 35 80 7).ROS ≠
      0.5 * (rateOfSpreadExtended FuelType.C2 10 60 95 1 50 35 80 7).ROS
        + 0.5 * (rateOfSpreadExtended FuelType.D1 10 60 95 1 50 35 80 7).ROS := by
  have hXpos : (0 : ℝ) < 110 * (1 - exp (-0.0282 * 10)) ^ ((1.5 : ℝ)) :=
    simpleCurve_pos (by norm_num) (by norm_num) (by norm_num)
  have hYpos := R1_pos
  have hM1 : (rateOfSpreadExtended FuelType.M1 10 60 (95 : ℝ) 1 50 35 80 7).ROS =
      buildupEffect FuelType.M1 60 *
        (50 / 100 * (110 * (1 - exp (-0.0282 * 10)) ^ ((1.5 : ℝ)))
          + (100 - 50) / 100 * (30 * (1 - exp (-0.0232 * 10)) ^ ((1.6 : ℝ)))) := by
    rw [rosExt_ROS_nonC6 _ (by decide)]
    simp only [rsiOf]
    rw [ros_inner_C2 (by norm_num) 95 1 50 35 80 7, ros_inner_D1 (by norm_num) 95 1 50 35 80 7]
    exact floor_of_pos (mul_pos (buildupEffect_pos _ _) (by nlinarith))
  have hC2e : (rateOfSpreadExtended FuelType.C2 10 60 (95 : ℝ) 1 50 35 80 7).ROS =
      buildupEffect FuelType.C2 60 * (110 * (1 - exp (-0.0282 * 10)) ^ ((1.5 : ℝ))) := by
    rw [rosExt_ROS_nonC6 _ (by decide)]
    simp only [rsiOf, FuelType.aCoef, FuelType.bCoef, FuelType.c0Coef]
    exact floor_of_pos (mul_pos (buildupEffect_pos _ _) hXpos)
  have hD1e : (rateOfSpreadExtended FuelType.D1 10 60 (95 : ℝ) 1 50 35 80 7).ROS =
      buildupEffect FuelType.D1 60 * (30 * (1 - exp (-0.0232 * 10)) ^ ((1.6 : ℝ))) := by
    rw [rosExt_ROS_nonC6 _ (by decide)]
    simp only [rsiOf, FuelType.aCoef, FuelType.bCoef, FuelType.c0Coef]
    exact floor_of_pos (mul_pos (buildupEffect_pos _ _) hYpos)
  rw [hM1, hC2e, hD1e]
  have hm1 := BE_M1_60_lb
  have hc2 := BE_C2_60_ub
  have hd1 := BE_D1_60_ub
  have hX_lb := R2_lb
  have hY_ub := R1_ub
  intro hcon
  set BM := buildupEffect FuelType.M1 60 with hBM
  set BC := buildupEffect FuelType.C2 60 with hBC
  set BD := buildupEffect FuelType.D1 60 with hBD
  set X := 110 * (1 - exp (-0.0282 * 10)) ^ ((1.5 : ℝ)) with hXd
  set Y := 30 * (1 - exp (-0.0232 * 10)) ^ ((1.6 : ℝ)) with hYd
  have heq : (BM - BC) * X = (BD - BM) * Y := by linear_combination 2 * hcon
  have hL : (1.036 - 64 / 65) * 11.33 ≤ (BM - BC) * X :=
    mul_le_mul (by linarith) hX_lb (by norm_num) (by linarith)
  have hR : (BD - BM) * Y ≤ (432 / 397 - 1.036) * 6.96 := by
    rcases le_or_lt (BD - BM) 0 with hd | hd
    · nlinarith
    · exact mul_le_mul (by linarith) hY_ub hYpos.le (by linarith)
  linarith

/-- C1 (amended): the M1 surface rate at `PC = 50, ISI = 10, BUI = 60` is the
M1 buildup factor times the average of the C2 and D1 engine results computed
at the same `ISI` with the *disabled-buildup sentinel* `BUI = -1`. -/
theorem C1_m1_blend_amended :
    (rateOfSpreadExtended FuelType.M1 10 60 95 1 50 35 80 7).ROS =
      buildupEffect FuelType.M1 60 *
        (0.5 * (rateOfSpreadExtended FuelType.C2 10 (-1) 95 1 50 35 80 7).ROS
          + 0.5 * (rateOfSpreadExtended FuelType.D1 10 (-1) 95 1 50 35 80 7).ROS) := by
  rw [rosExt_ROS_nonC6 _ (by decide)]
  simp only [rsiOf]
  rw [ros_inner_C2 (by norm_num) 95 1 50 35 80 7, ros_inner_D1 (by norm_num) 95 1 50 35 80 7]
  have hXpos : (0 : ℝ) < 110 * (1 - exp (-0.0282 * 10)) ^ ((1.5 : ℝ)) :=
    simpleCurve_pos (by norm_num) (by norm_num) (by norm_num)
  have hYpos := R1_pos
  have hpos : 0 < buildupEffect FuelType.M1 60 *
      (50 / 100 * (110 * (1 - exp (-0.0282 * 10)) ^ ((1.5 : ℝ)))
        + (100 - 50) / 100 * (30 * (1 - exp (-0.0232 * 10)) ^ ((1.6 : ℝ)))) :=
    mul_pos (buildupEffect_pos _ _) (by nlinarith)
  rw [floor_of_pos hpos]
  ring
